import Mathlib

/-!
Shallow embedding of the visa-consultation backend (Express + SQLite).

The data model follows `src/backend/config/database.js` (the CREATE TABLE
statements), and each route handler is translated from its source file:
`src/backend/routes/contact.js`, `src/backend/routes/feedback.js`,
`src/backend/routes/newsletter.js`, with validation middleware from
`src/backend/middleware/errorHandler.js` (handleValidationErrors) and
express-validator rule chains translated rule by rule.

Two runtime failure modes of the JavaScript code are modelled explicitly,
because several routes hit them:
* a SQL statement that references a column absent from the table schema
  makes sqlite3 reject the statement (the promise helpers in database.js
  reject, catchAsync forwards to errorHandler, HTTP 500);
* a free identifier that is not bound in the module scope (for example
  getRow in contact.js, whose import list at contact.js line 3 is only
  runQuery and getRows) raises a ReferenceError at the point of use
  (caught by catchAsync, HTTP 500).
Each SQL statement is therefore represented by the list of column names its
text references (transcribed by hand from the SQL string in the route)
together with its semantic action on the store, and the executor checks the
referenced columns against the schema before acting.
-/

set_option maxHeartbeats 1000000

namespace VisaSite

/-- One entry of the `errors` array produced by handleValidationErrors
(errorHandler.js lines 156-177): the express-validator error mapped to
`field`, `message`, `value`. -/
structure FieldError where
  field : String
  message : String
  value : String
  deriving Repr, DecidableEq

/-- Outcome of one HTTP request, as the route handlers produce it:
a success envelope (with HTTP code, the `data.status` tag of the JSON body
and the generated identifier when one is returned), the 400 envelope of
handleValidationErrors, an AppError thrown by the handler (HTTP code and
machine-readable code), or an uncaught JavaScript/SQL error that reaches
errorHandler as a non-operational 500. -/
inductive ApiResponse where
  | success (httpCode : Nat) (statusTag : String) (ident : Option String)
  | validationFail (errors : List FieldError)
  | appErr (httpCode : Nat) (code : String)
  | jsError (msg : String)
  deriving Repr, DecidableEq

/-- HTTP status code of a response (errorHandler.js: validation envelope is
400, AppError carries its own code, anything uncaught becomes 500). -/
def ApiResponse.httpStatus : ApiResponse → Nat
  | .success c _ _ => c
  | .validationFail _ => 400
  | .appErr c _ => c
  | .jsError _ => 500

/-- Fields named by the errors array of a validation-failure response. -/
def ApiResponse.errorFields : ApiResponse → List String
  | .validationFail errs => errs.map (·.field)
  | _ => []

/-! ## Table schemas (database.js, createTables) -/

/-- Columns of contact_messages (database.js lines 62-77). -/
def contactMessagesColumns : List String :=
  ["id", "message_id", "full_name", "email", "phone", "inquiry_type",
   "subject", "message", "preferred_contact", "urgency_level",
   "newsletter_subscription", "status", "created_at", "updated_at"]

/-- Columns of feedback (database.js lines 80-98). -/
def feedbackColumns : List String :=
  ["id", "feedback_id", "full_name", "email", "phone", "visa_type",
   "service_rating", "would_recommend", "feedback_title", "feedback_message",
   "aspects_impressed", "allow_public_display", "allow_contact", "status",
   "is_featured", "created_at", "updated_at"]

/-- Columns of newsletter_subscriptions (database.js lines 101-110). -/
def newsletterSubscriptionsColumns : List String :=
  ["id", "email", "full_name", "subscription_date", "is_active",
   "unsubscribe_token", "created_at", "updated_at"]

/-! ## Rows

One structure per table, mirroring the schema columns (the integer rowid
`id` is not modelled; handlers never read it). Timestamp columns are
modelled as natural-number ticks supplied by the caller for
CURRENT_TIMESTAMP. -/

/-- A contact_messages row. The schema has no admin_notes column. -/
structure ContactRow where
  message_id : String
  full_name : String
  email : String
  phone : Option String
  inquiry_type : String
  subject : String
  message : String
  preferred_contact : String
  status : String
  created_at : Nat
  updated_at : Nat
  deriving Repr, DecidableEq

/-- A feedback row. The schema has no admin_notes, feedback_type,
service_used or application_id column. -/
structure FeedbackRow where
  feedback_id : String
  full_name : String
  email : String
  phone : Option String
  visa_type : Option String
  service_rating : Int
  would_recommend : String
  feedback_title : String
  feedback_message : String
  aspects_impressed : Option String
  allow_public_display : Bool
  allow_contact : Bool
  status : String
  is_featured : Bool
  created_at : Nat
  updated_at : Nat
  deriving Repr, DecidableEq

/-- A newsletter_subscriptions row. The schema has no status column; the
active flag is the boolean is_active. -/
structure NewsletterRow where
  email : String
  full_name : Option String
  subscription_date : Nat
  is_active : Bool
  unsubscribe_token : Option String
  created_at : Nat
  updated_at : Nat
  deriving Repr, DecidableEq

/-! ## Query execution model -/

/-- True when every column referenced by a SQL statement exists in the
table schema; sqlite3 rejects the statement otherwise. -/
def columnsOk (schema refs : List String) : Bool :=
  refs.all (fun c => schema.contains c)

/-- Run the getRow helper of database.js (db.get): returns the first row
matching the WHERE condition, or a SQL error when the statement references
an unknown column. -/
def runGetRow {Row : Type} (schema refs : List String) (cond : Row → Bool)
    (store : List Row) : Except String (Option Row) :=
  if columnsOk schema refs then .ok (store.find? cond)
  else .error "SQLITE_ERROR: no such column"

/-- Run a parameterized UPDATE through the runQuery helper: applies the SET
clause to every row matching the WHERE condition, or fails when the
statement references an unknown column. -/
def runUpdate {Row : Type} (schema refs : List String) (cond : Row → Bool)
    (set : Row → Row) (store : List Row) : Except String (List Row) :=
  if columnsOk schema refs then
    .ok (store.map (fun r => if cond r then set r else r))
  else .error "SQLITE_ERROR: no such column"

/-- Run a parameterized INSERT through the runQuery helper: appends the new
row, or fails when the statement references an unknown column. -/
def runInsert {Row : Type} (schema refs : List String) (row : Row)
    (store : List Row) : Except String (List Row) :=
  if columnsOk schema refs then .ok (store ++ [row])
  else .error "SQLITE_ERROR: no such column"

/-- Run the getRows helper of database.js (db.all): returns every row
matching the WHERE condition, or a SQL error when the statement references
an unknown column. -/
def runGetRows {Row : Type} (schema refs : List String) (cond : Row → Bool)
    (store : List Row) : Except String (List Row) :=
  if columnsOk schema refs then .ok (store.filter cond)
  else .error "SQLITE_ERROR: no such column"

/-- Run a SELECT COUNT statement: the number of rows matching the WHERE
condition, or a SQL error when the statement references an unknown
column. -/
def runCount {Row : Type} (schema refs : List String) (cond : Row → Bool)
    (store : List Row) : Except String Nat :=
  if columnsOk schema refs then .ok (store.filter cond).length
  else .error "SQLITE_ERROR: no such column"

/-- Names imported from ../config/database by contact.js line 3:
only runQuery and getRows; getRow is absent. -/
def contactDbImportList : List String := ["runQuery", "getRows"]

/-- Names imported from ../config/database by feedback.js line 3. -/
def feedbackDbImportList : List String := ["runQuery", "getRows", "getRow"]

/-- Names imported from ../config/database by newsletter.js line 3. -/
def newsletterDbImportList : List String := ["runQuery", "getRows", "getRow"]

/-- Resolve a module-scope identifier before calling it: a name missing
from the module's import list is an unbound identifier in JavaScript and
raises a ReferenceError at the point of use. -/
def jsCall {A : Type} (importList : List String) (name : String)
    (value : A) : Except String A :=
  if importList.contains name then .ok value
  else .error ("ReferenceError: " ++ name ++ " is not defined")

/-! ## String helpers shared by the validators

The JavaScript string primitives the routes use (trim, toLowerCase, the
at-sign split inside the email check) are modelled by structural functions
on the character list of the string, so that every validator is computable
by the kernel. -/

/-- Whitespace stripped from both ends of a character list (the trim
sanitizer, JavaScript String.prototype.trim). -/
def trimChars (l : List Char) : List Char :=
  ((l.dropWhile Char.isWhitespace).reverse.dropWhile Char.isWhitespace).reverse

/-- The trim sanitizer on strings. -/
def jsTrim (s : String) : String := String.mk (trimChars s.data)

/-- ASCII lower-casing of one character. -/
def asciiLowerChar (c : Char) : Char :=
  if 'A' ≤ c && c ≤ 'Z' then Char.ofNat (c.toNat + 32) else c

/-- Split of a character list on a separator character; the result always
has at least one (possibly empty) part. -/
def splitOnChar (sep : Char) : List Char → List (List Char)
  | [] => [[]]
  | c :: rest =>
    match splitOnChar sep rest with
    | h :: t => if c == sep then [] :: h :: t else (c :: h) :: t
    | [] => [[c]]

/-- Character class of the name regular expression used by the contact,
feedback and newsletter name rules: letters, whitespace, hyphen,
apostrophe. -/
def isNameChar (c : Char) : Bool :=
  c.isAlpha || c.isWhitespace || c == '-' || c == '\''

/-- Match of the anchored name pattern: at least one character, all from
the name character class. -/
def nameMatches (s : String) : Bool :=
  !s.data.isEmpty && s.data.all isNameChar

/-- Email shape check, modelling the isEmail validator of express-validator
at the granularity these routes rely on: exactly one at sign separating a
nonempty local part from a domain that has at least two nonempty
dot-separated labels, and no whitespace anywhere. -/
def isEmailShaped (s : String) : Bool :=
  match splitOnChar '@' s.data with
  | [localPart, domain] =>
    !localPart.isEmpty && !domain.isEmpty &&
    decide (2 ≤ (splitOnChar '.' domain).length) &&
    (splitOnChar '.' domain).all (fun p => !p.isEmpty) &&
    !s.data.any (·.isWhitespace)
  | _ => false

/-- Email normalization applied by the normalizeEmail sanitizer (its
default options lower-case the address). -/
def normalizeEmail (s : String) : String :=
  String.mk (s.data.map asciiLowerChar)

/-- Match of the phone pattern of contact.js: an optional plus, a leading
digit 1-9, then 1 to 14 further digits. -/
def phoneMatches (s : String) : Bool :=
  let l := match s.data with
    | '+' :: rest => rest
    | l => l
  match l with
  | c :: rest =>
    ('1' ≤ c && c ≤ '9') && rest.all Char.isDigit &&
    decide (1 ≤ rest.length) && decide (rest.length ≤ 14)
  | [] => false

/-! ## Identifier generation

Every submit handler builds its identifier the same way, for example
feedback.js line 76:
  FB-(Date.now())-(Math.random().toString(36).substr(2, 6).toUpperCase()).
Date.now() is modelled as a natural number rendered in decimal, and the
random part by the list of base-36 fractional digits that toString(36)
prints for the drawn value (nonempty unless the drawn value is exactly 0,
since toString trims trailing zeros and prints at least one fractional
digit for any other value in the unit interval). -/

/-- Decimal digit characters of a natural number, most significant first,
as JavaScript template interpolation renders Date.now(). -/
def natDecChars (n : Nat) : List Char :=
  if _h : n < 10 then [Nat.digitChar n]
  else natDecChars (n / 10) ++ [Nat.digitChar (n % 10)]
termination_by n
decreasing_by exact Nat.div_lt_self (by omega) (by omega)

/-- Decimal string of a natural number. -/
def natDecString (n : Nat) : String := String.mk (natDecChars n)

/-- Digit of JavaScript Number.prototype.toString(36): 0-9 then lower-case
a-z. -/
def base36Char (d : Nat) : Char :=
  if d < 10 then Nat.digitChar d else Char.ofNat (87 + d)

/-- The toUpperCase map on one character (ASCII letters). -/
def jsUpperChar (c : Char) : Char :=
  if 'a' ≤ c && c ≤ 'z' then Char.ofNat (c.toNat - 32) else c

/-- Model of Math.random().toString(36).substr(2, 6).toUpperCase():
substr(2, 6) drops the leading zero and dot of the printed value and keeps
at most six fractional digits, then the letters are upper-cased. -/
def jsRandSuffix (digits : List Nat) : String :=
  String.mk (((digits.map base36Char).take 6).map jsUpperChar)

/-- Identifier of a feedback submission (feedback.js line 76). -/
def mkFeedbackId (now : Nat) (digits : List Nat) : String :=
  "FB-" ++ natDecString now ++ "-" ++ jsRandSuffix digits

/-- Identifier of a contact message (contact.js line 67). -/
def mkContactId (now : Nat) (digits : List Nat) : String :=
  "CONTACT-" ++ natDecString now ++ "-" ++ jsRandSuffix digits

/-- Identifier of a new newsletter subscription (newsletter.js line 107). -/
def mkNewsletterId (now : Nat) (digits : List Nat) : String :=
  "NL-" ++ natDecString now ++ "-" ++ jsRandSuffix digits

/-! ## The identifier patterns of the spec -/

/-- Upper-case alphanumeric character class of the identifier patterns. -/
def isUpperAlnum (c : Char) : Bool :=
  ('A' ≤ c && c ≤ 'Z') || c.isDigit

/-- Match of the tail after the hyphen of the identifier patterns: one or
more upper-case alphanumerics, anchored to the end. -/
def upperTailMatches (l : List Char) : Bool :=
  !l.isEmpty && l.all isUpperAlnum

/-- Match of the pattern tail (one or more decimal digits, a hyphen, one
or more upper-case alphanumerics), anchored to the end; the digit run is
maximal, and the character after it must be the hyphen. -/
def idTailMatches (l : List Char) : Bool :=
  !(l.takeWhile Char.isDigit).isEmpty &&
    (match l.dropWhile Char.isDigit with
     | '-' :: suf => upperTailMatches suf
     | _ => false)

/-- Match of the anchored feedback identifier pattern of spec section 8,
FB hyphen digits hyphen upper-case alphanumerics. -/
def matchesFeedbackIdPattern (s : String) : Bool :=
  s.data.take 3 == ['F', 'B', '-'] && idTailMatches (s.data.drop 3)

/-- Match of the anchored application identifier pattern of feedback.js
line 54, UAE hyphen digits hyphen upper-case alphanumerics. -/
def matchesApplicationIdPattern (s : String) : Bool :=
  s.data.take 4 == ['U', 'A', 'E', '-'] && idTailMatches (s.data.drop 4)

/-! ## Shared express-validator rule chains

Each rule chain is translated to a function returning the list of errors it
contributes; express-validator runs every chain and every validator inside
a chain (no bail call appears in these routes), so the route-level error
list is the concatenation of the per-chain lists, in rule order. -/

/-- The name chain shared verbatim by contact.js lines 12-17 and
feedback.js lines 12-17: trim, length 2-100, then the name pattern; each
failing validator contributes its own error. -/
def nameRuleErrors (s : String) : List FieldError :=
  let t := jsTrim s
  (if decide (2 ≤ t.length) && decide (t.length ≤ 100) then []
   else [⟨"name", "Name must be between 2 and 100 characters", t⟩])
  ++ (if nameMatches t then []
      else [⟨"name", "Name can only contain letters, spaces, hyphens, and apostrophes", t⟩])

/-- The email chain shared by the three routes: isEmail with
normalizeEmail. -/
def emailRuleErrors (s : String) : List FieldError :=
  if isEmailShaped s then []
  else [⟨"email", "Please provide a valid email address", s⟩]

/-- A trim plus isLength chain with the given bounds and message. -/
def lengthRuleErrors (field : String) (lo hi : Nat) (msg : String)
    (s : String) : List FieldError :=
  let t := jsTrim s
  if decide (lo ≤ t.length) && decide (t.length ≤ hi) then []
  else [⟨field, msg, t⟩]

/-- An isIn chain over the given allowed list. -/
def enumRuleErrors (field : String) (allowed : List String) (msg : String)
    (s : String) : List FieldError :=
  if allowed.contains s then [] else [⟨field, msg, s⟩]

/-- Outcome of one sendEmail call (emailService sendEmail rethrows the
transport error after logging it, so the caller observes either the sent
message or the raised error). -/
inductive EmailOutcome where
  | sent (messageId : String)
  | failed (err : String)
  deriving Repr, DecidableEq

/-- Log lines produced by the try/catch block wrapping the two sendEmail
awaits of a submit handler: a failure of the first send skips the second,
the catch logs and the error never propagates. -/
def emailTryCatchLog (userEmail adminEmail : EmailOutcome) : List String :=
  match userEmail with
  | .failed e => ["Email sending failed: " ++ e]
  | .sent _ =>
    match adminEmail with
    | .failed e => ["Email sending failed: " ++ e]
    | .sent _ => []

/-! ## Contact route (contact.js) -/

/-- Allowed inquiry types (contact.js line 42). -/
def inquiryTypeAllowed : List String :=
  ["general", "visa_inquiry", "application_status", "technical_support",
   "complaint", "suggestion"]

/-- Allowed contact methods (contact.js line 47). -/
def contactMethodAllowed : List String := ["email", "phone", "both"]

/-- Raw body of POST /api/contact; optional chains skip absent fields. -/
structure ContactInput where
  name : String
  email : String
  phone : Option String
  subject : String
  message : String
  inquiry_type : Option String
  preferred_contact_method : Option String
  deriving Repr, DecidableEq

/-- The contact validation rules (contact.js lines 11-49), all chains run
and collected. -/
def contactValidate (i : ContactInput) : List FieldError :=
  nameRuleErrors i.name
  ++ emailRuleErrors i.email
  ++ (match i.phone with
      | none => []
      | some p =>
        if phoneMatches (jsTrim p) then []
        else [⟨"phone", "Please provide a valid phone number", jsTrim p⟩])
  ++ lengthRuleErrors "subject" 5 200
       "Subject must be between 5 and 200 characters" i.subject
  ++ lengthRuleErrors "message" 10 2000
       "Message must be between 10 and 2000 characters" i.message
  ++ (match i.inquiry_type with
      | none => []
      | some t => enumRuleErrors "inquiry_type" inquiryTypeAllowed
          "Please select a valid inquiry type" t)
  ++ (match i.preferred_contact_method with
      | none => []
      | some m => enumRuleErrors "preferred_contact_method" contactMethodAllowed
          "Please select a valid contact method" m)

/-- Columns referenced by the INSERT of contact.js lines 70-79. -/
def contactInsertRefs : List String :=
  ["message_id", "full_name", "email", "phone", "subject", "message",
   "inquiry_type", "preferred_contact", "status", "created_at", "updated_at"]

/-- The contact row written by the INSERT of contact.js lines 70-79. -/
def insertedContactRow (i : ContactInput) (cid : String) (now : Nat) :
    ContactRow :=
  { message_id := cid
    full_name := jsTrim i.name
    email := normalizeEmail i.email
    phone := i.phone.map jsTrim
    inquiry_type := i.inquiry_type.getD "general"
    subject := jsTrim i.subject
    message := jsTrim i.message
    preferred_contact := i.preferred_contact_method.getD "email"
    status := "new"
    created_at := now
    updated_at := now }

/-- POST /api/contact (contact.js lines 52-136): validate, insert with
status new, attempt the two notification emails inside a try/catch that
only logs, respond 201. Returns the response, the store afterwards and
the console error log. -/
def contactSubmit (store : List ContactRow) (i : ContactInput) (now : Nat)
    (digits : List Nat) (userEmail adminEmail : EmailOutcome) :
    ApiResponse × List ContactRow × List String :=
  let errs := contactValidate i
  if errs.isEmpty then
    let contactId := mkContactId now digits
    let row := insertedContactRow i contactId now
    match runInsert contactMessagesColumns contactInsertRefs row store with
    | .error e => (.jsError e, store, [])
    | .ok store' =>
      (.success 201 "received" (some contactId), store',
       emailTryCatchLog userEmail adminEmail)
  else (.validationFail errs, store, [])

/-- Body of a PATCH status request (contact.js lines 206-213 and
feedback.js lines 256-263 use the same shape: a status plus optional
notes). -/
structure StatusPatchBody where
  status : String
  notes : Option String
  deriving Repr, DecidableEq

/-- Allowed target statuses of a contact message (contact.js line 207). -/
def contactStatusAllowed : List String :=
  ["new", "in_progress", "resolved", "closed"]

/-- Validation chains of PATCH /api/contact/messages/:contactId/status
(contact.js lines 206-213). -/
def contactPatchValidate (b : StatusPatchBody) : List FieldError :=
  enumRuleErrors "status" contactStatusAllowed "Invalid status" b.status
  ++ (match b.notes with
      | none => []
      | some n =>
        if decide ((jsTrim n).length ≤ 1000) then []
        else [⟨"notes", "Notes cannot exceed 1000 characters", jsTrim n⟩])

/-- Columns referenced by the UPDATE of contact.js lines 229-233; the
admin_notes column it sets does not exist in contact_messages. -/
def contactPatchUpdateRefs : List String :=
  ["status", "admin_notes", "updated_at", "message_id"]

/-- PATCH /api/contact/messages/:contactId/status (contact.js lines
205-265). After validation the handler calls getRow, a name absent from
the import list of contact.js line 3, so the call site raises a
ReferenceError; were it bound, the existence check would 404 on an unknown
identifier and the UPDATE would set status, admin_notes and updated_at on
the matching row (only the columns that exist are representable on the
row). -/
def contactPatchStatus (store : List ContactRow) (contactId : String)
    (b : StatusPatchBody) (now : Nat) : ApiResponse × List ContactRow :=
  let errs := contactPatchValidate b
  if errs.isEmpty then
    match jsCall contactDbImportList "getRow"
        (runGetRow contactMessagesColumns ["message_id"]
          (fun r => r.message_id == contactId) store) with
    | .error e => (.jsError e, store)
    | .ok (.error e) => (.jsError e, store)
    | .ok (.ok none) => (.appErr 404 "MESSAGE_NOT_FOUND", store)
    | .ok (.ok (some _)) =>
      match runUpdate contactMessagesColumns contactPatchUpdateRefs
          (fun r => r.message_id == contactId)
          (fun r => { r with status := b.status, updated_at := now }) store with
      | .error e => (.jsError e, store)
      | .ok store' => (.success 200 b.status (some contactId), store')
  else (.validationFail errs, store)

/-! ## Feedback route (feedback.js) -/

/-- Allowed service types (feedback.js line 26). -/
def serviceUsedAllowed : List String :=
  ["visa_application", "document_verification", "consultation",
   "status_inquiry", "other"]

/-- Allowed feedback types (feedback.js line 34). -/
def feedbackTypeAllowed : List String :=
  ["compliment", "complaint", "suggestion", "general"]

/-- Allowed recommendation answers (feedback.js line 48). -/
def wouldRecommendAllowed : List String := ["yes", "no", "maybe"]

/-- Raw body of POST /api/feedback. No validation chain consumes phone;
it is carried here because the claim about dropped fields mentions it. -/
structure FeedbackInput where
  name : String
  email : String
  phone : Option String
  service_used : Option String
  rating : Int
  feedback_type : String
  subject : String
  message : String
  would_recommend : String
  application_id : Option String
  deriving Repr, DecidableEq

/-- The feedback validation rules (feedback.js lines 11-56), all chains
run and collected. -/
def feedbackValidate (i : FeedbackInput) : List FieldError :=
  nameRuleErrors i.name
  ++ emailRuleErrors i.email
  ++ (match i.service_used with
      | none => []
      | some s => enumRuleErrors "service_used" serviceUsedAllowed
          "Please select a valid service type" s)
  ++ (if decide (1 ≤ i.rating) && decide (i.rating ≤ 5) then []
      else [⟨"rating", "Rating must be between 1 and 5", toString i.rating⟩])
  ++ enumRuleErrors "feedback_type" feedbackTypeAllowed
       "Please select a valid feedback type" i.feedback_type
  ++ lengthRuleErrors "subject" 5 200
       "Subject must be between 5 and 200 characters" i.subject
  ++ lengthRuleErrors "message" 10 2000
       "Message must be between 10 and 2000 characters" i.message
  ++ enumRuleErrors "would_recommend" wouldRecommendAllowed
       "Please specify if you would recommend our services" i.would_recommend
  ++ (match i.application_id with
      | none => []
      | some a =>
        if matchesApplicationIdPattern (jsTrim a) then []
        else [⟨"application_id",
               "Please provide a valid application ID if applicable", jsTrim a⟩])

/-- Columns referenced by the INSERT of feedback.js lines 79-88; the
validated feedback_type, service_used, application_id and the unvalidated
phone are not among them. -/
def feedbackInsertRefs : List String :=
  ["feedback_id", "full_name", "email", "service_rating", "would_recommend",
   "feedback_title", "feedback_message", "status", "created_at", "updated_at"]

/-- The feedback row written by the INSERT of feedback.js lines 79-88:
the listed columns from the body, status pending, timestamps now, every
other column left at its schema default (NULL or false). -/
def insertedFeedbackRow (i : FeedbackInput) (fid : String) (now : Nat) :
    FeedbackRow :=
  { feedback_id := fid
    full_name := jsTrim i.name
    email := normalizeEmail i.email
    phone := none
    visa_type := none
    service_rating := i.rating
    would_recommend := i.would_recommend
    feedback_title := jsTrim i.subject
    feedback_message := jsTrim i.message
    aspects_impressed := none
    allow_public_display := false
    allow_contact := false
    status := "pending"
    is_featured := false
    created_at := now
    updated_at := now }

/-- POST /api/feedback (feedback.js lines 59-146): validate, insert with
status pending, attempt the two notification emails inside a try/catch
that only logs, respond 201 with the generated identifier. -/
def feedbackSubmit (store : List FeedbackRow) (i : FeedbackInput) (now : Nat)
    (digits : List Nat) (userEmail adminEmail : EmailOutcome) :
    ApiResponse × List FeedbackRow × List String :=
  let errs := feedbackValidate i
  if errs.isEmpty then
    let fid := mkFeedbackId now digits
    match runInsert feedbackColumns feedbackInsertRefs
        (insertedFeedbackRow i fid now) store with
    | .error e => (.jsError e, store, [])
    | .ok store' =>
      (.success 201 "received" (some fid), store',
       emailTryCatchLog userEmail adminEmail)
  else (.validationFail errs, store, [])

/-- Allowed target statuses of a feedback entry (feedback.js line 257). -/
def feedbackStatusAllowed : List String :=
  ["new", "reviewed", "responded", "closed"]

/-- Validation chains of PATCH /api/feedback/:feedbackId/status
(feedback.js lines 256-263). -/
def feedbackPatchValidate (b : StatusPatchBody) : List FieldError :=
  enumRuleErrors "status" feedbackStatusAllowed "Invalid status" b.status
  ++ (match b.notes with
      | none => []
      | some n =>
        if decide ((jsTrim n).length ≤ 1000) then []
        else [⟨"admin_notes", "Admin notes cannot exceed 1000 characters", jsTrim n⟩])

/-- Columns referenced by the UPDATE of feedback.js lines 279-283; the
admin_notes column it sets does not exist in feedback. -/
def feedbackPatchUpdateRefs : List String :=
  ["status", "admin_notes", "updated_at", "feedback_id"]

/-- PATCH /api/feedback/:feedbackId/status (feedback.js lines 255-315):
validate, 404 when the identifier resolves to no row, then UPDATE status,
admin_notes, updated_at; the response email fires only after a successful
update. Only the columns that exist are representable in the SET
function. -/
def feedbackPatchStatus (store : List FeedbackRow) (feedbackId : String)
    (b : StatusPatchBody) (now : Nat) : ApiResponse × List FeedbackRow :=
  let errs := feedbackPatchValidate b
  if errs.isEmpty then
    match jsCall feedbackDbImportList "getRow"
        (runGetRow feedbackColumns ["feedback_id"]
          (fun r => r.feedback_id == feedbackId) store) with
    | .error e => (.jsError e, store)
    | .ok (.error e) => (.jsError e, store)
    | .ok (.ok none) => (.appErr 404 "FEEDBACK_NOT_FOUND", store)
    | .ok (.ok (some _)) =>
      match runUpdate feedbackColumns feedbackPatchUpdateRefs
          (fun r => r.feedback_id == feedbackId)
          (fun r => { r with status := b.status, updated_at := now }) store with
      | .error e => (.jsError e, store)
      | .ok store' => (.success 200 b.status (some feedbackId), store')
  else (.validationFail errs, store)

/-! ## Newsletter route (newsletter.js) -/

/-- Allowed preference tags (newsletter.js line 33). -/
def preferenceAllowed : List String :=
  ["visa_updates", "policy_changes", "travel_tips", "promotions",
   "general_news"]

/-- Raw body of POST /api/newsletter/subscribe. -/
structure SubscribeInput where
  email : String
  name : Option String
  preferences : Option (List String)
  deriving Repr, DecidableEq

/-- The subscription validation rules (newsletter.js lines 12-35): email,
optional name with the shared name chain, optional preference array
checked element-wise against the allowed vocabulary (the element error
path carries the element index in the source; the field is abbreviated to
preferences here, which no claim inspects). -/
def subscribeValidate (i : SubscribeInput) : List FieldError :=
  emailRuleErrors i.email
  ++ (match i.name with
      | none => []
      | some n => nameRuleErrors n)
  ++ (match i.preferences with
      | none => []
      | some ps =>
        (ps.filter (fun p => !preferenceAllowed.contains p)).map
          (fun p => ⟨"preferences", "Invalid preference option", p⟩))

/-- Columns referenced by the reactivation UPDATE of newsletter.js lines
68-73. -/
def subscribeUpdateRefs : List String :=
  ["is_active", "full_name", "unsubscribe_token", "updated_at", "email"]

/-- Columns referenced by the INSERT of newsletter.js lines 109-116. -/
def subscribeInsertRefs : List String :=
  ["email", "full_name", "unsubscribe_token", "is_active", "created_at",
   "updated_at"]

/-- The WHERE condition of the email lookup, reactivation UPDATE and
insert duplicate avoidance (newsletter.js lines 50-52 and 68-73). -/
def emailCond (e : String) (r : NewsletterRow) : Bool := r.email == e

/-- The SET clause of the reactivation UPDATE of newsletter.js lines
68-73. -/
def reactivatedRow (name : Option String) (token : String) (now : Nat)
    (r : NewsletterRow) : NewsletterRow :=
  { r with is_active := true
           full_name := name.map jsTrim
           unsubscribe_token := some token
           updated_at := now }

/-- The newsletter row written by the INSERT of newsletter.js lines
109-116; the unspecified subscription_date column takes its
CURRENT_TIMESTAMP default. -/
def newSubscriptionRow (i : SubscribeInput) (token : String) (now : Nat) :
    NewsletterRow :=
  { email := normalizeEmail i.email
    full_name := i.name.map jsTrim
    subscription_date := now
    is_active := true
    unsubscribe_token := some token
    created_at := now
    updated_at := now }

/-- POST /api/newsletter/subscribe (newsletter.js lines 43-169): fetch the
first row with the normalized email; an active row answers 200
already_subscribed without writing, an inactive row is reactivated in
place by the UPDATE keyed on the email, and only when no row exists is a
new active row inserted. The fresh unsubscribe token and the identifier
randomness are inputs. -/
def newsletterSubscribe (store : List NewsletterRow) (i : SubscribeInput)
    (token : String) (now : Nat) (digits : List Nat) :
    ApiResponse × List NewsletterRow :=
  let errs := subscribeValidate i
  if errs.isEmpty then
    match runGetRow newsletterSubscriptionsColumns ["email"]
        (emailCond (normalizeEmail i.email)) store with
    | .error e => (.jsError e, store)
    | .ok (some existing) =>
      if existing.is_active then
        (.success 200 "already_subscribed" none, store)
      else
        match runUpdate newsletterSubscriptionsColumns subscribeUpdateRefs
            (emailCond (normalizeEmail i.email))
            (reactivatedRow i.name token now) store with
        | .error e => (.jsError e, store)
        | .ok store' => (.success 200 "reactivated" none, store')
    | .ok none =>
      match runInsert newsletterSubscriptionsColumns subscribeInsertRefs
          (newSubscriptionRow i token now) store with
      | .error e => (.jsError e, store)
      | .ok store' =>
        (.success 201 "subscribed" (some (mkNewsletterId now digits)), store')
  else (.validationFail errs, store)

/-- Validation chains of POST /api/newsletter/unsubscribe (newsletter.js
lines 173-177): token present and exactly 64 characters. -/
def unsubscribeValidate (token : String) : List FieldError :=
  (if token.isEmpty then
     [⟨"token", "Unsubscribe token is required", token⟩] else [])
  ++ (if decide (64 ≤ token.length) && decide (token.length ≤ 64) then []
      else [⟨"token", "Invalid unsubscribe token", token⟩])

/-- Columns referenced by the SELECT of newsletter.js lines 183-186, whose
WHERE clause reads unsubscribe_token and status; the status column does
not exist in newsletter_subscriptions. -/
def unsubscribeSelectRefs : List String := ["unsubscribe_token", "status"]

/-- Columns referenced by the UPDATE of newsletter.js lines 193-197, whose
SET clause writes the nonexistent status column. -/
def unsubscribeUpdateRefs : List String :=
  ["status", "updated_at", "unsubscribe_token"]

/-- POST /api/newsletter/unsubscribe (newsletter.js lines 172-227): find
the subscription by token (the status conjunct of the WHERE clause has no
matching column), 400 INVALID_TOKEN when none is found, otherwise UPDATE
the row; only the representable part of the WHERE and SET appears in the
condition and set functions, and the column check governs whether either
statement runs at all. -/
def newsletterUnsubscribe (store : List NewsletterRow) (token : String)
    (now : Nat) : ApiResponse × List NewsletterRow :=
  let errs := unsubscribeValidate token
  if errs.isEmpty then
    match runGetRow newsletterSubscriptionsColumns unsubscribeSelectRefs
        (fun r => r.unsubscribe_token == some token) store with
    | .error e => (.jsError e, store)
    | .ok none => (.appErr 400 "INVALID_TOKEN", store)
    | .ok (some _) =>
      match runUpdate newsletterSubscriptionsColumns unsubscribeUpdateRefs
          (fun r => r.unsubscribe_token == some token)
          (fun r => { r with updated_at := now }) store with
      | .error e => (.jsError e, store)
      | .ok store' => (.success 200 "unsubscribed" none, store')
  else (.validationFail errs, store)

/-! ## List endpoints (contact.js GET /messages, feedback.js GET /) -/

/-- Query string of GET /api/contact/messages with its defaults
(contact.js line 140). -/
structure ContactListQuery where
  page : Nat := 1
  limit : Nat := 20
  status : Option String := none
  inquiry_type : Option String := none
  deriving Repr, DecidableEq

/-- One returned page: the records, the matching total and the computed
page count. -/
structure ListPage (Row : Type) where
  records : List Row
  total : Nat
  total_pages : Nat

/-- Page count as Math.ceil(total / limit) computes it for a positive
limit. -/
def ceilDiv (total limit : Nat) : Nat :=
  if limit == 0 then 0 else (total + limit - 1) / limit

/-- Columns referenced by the SELECT of contact.js lines 156-163 plus the
dynamically appended filter columns. -/
def contactListSelectRefs (q : ContactListQuery) : List String :=
  ["message_id", "full_name", "email", "phone", "subject", "inquiry_type",
   "status", "created_at", "updated_at"]
  ++ (if q.status.isSome then ["status"] else [])
  ++ (if q.inquiry_type.isSome then ["inquiry_type"] else [])

/-- The WHERE clause built by contact.js lines 143-154. -/
def contactListCond (q : ContactListQuery) (r : ContactRow) : Bool :=
  (match q.status with
   | some s => r.status == s
   | none => true)
  && (match q.inquiry_type with
      | some t => r.inquiry_type == t
      | none => true)

/-- GET /api/contact/messages (contact.js lines 139-182): the page query
runs through getRows, then the count query calls getRow, a name absent
from the import list of contact.js line 3, so the handler raises a
ReferenceError before any response with a page can be produced. Ordering
is by creation time descending; the rows are kept in store order here,
which no surviving claim observes. -/
def contactListMessages (store : List ContactRow) (q : ContactListQuery) :
    Except String (ListPage ContactRow) :=
  match runGetRows contactMessagesColumns (contactListSelectRefs q)
      (contactListCond q) store with
  | .error e => .error e
  | .ok _rows =>
    match jsCall contactDbImportList "getRow"
        (runCount contactMessagesColumns
          ((if q.status.isSome then ["status"] else [])
           ++ (if q.inquiry_type.isSome then ["inquiry_type"] else []))
          (contactListCond q) store) with
    | .error e => .error e
    | .ok (.error e) => .error e
    | .ok (.ok total) =>
      .ok { records := ((store.filter (contactListCond q)).drop
              ((q.page - 1) * q.limit)).take q.limit
            total := total
            total_pages := ceilDiv total q.limit }

/-- Query string of GET /api/feedback with its defaults (feedback.js
lines 150-159). -/
structure FeedbackListQuery where
  page : Nat := 1
  limit : Nat := 20
  feedback_type : Option String := none
  rating : Option Int := none
  status : Option String := none
  service_used : Option String := none
  sort_by : String := "created_at"
  sort_order : String := "desc"
  deriving Repr, DecidableEq

/-- Sort column resolution of feedback.js lines 190-193: the allow-list
is created_at, rating, feedback_type, name, anything else falls back to
created_at. -/
def feedbackSortColumn (q : FeedbackListQuery) : String :=
  if ["created_at", "rating", "feedback_type", "name"].contains q.sort_by
  then q.sort_by else "created_at"

/-- Columns referenced by the SELECT of feedback.js lines 196-203: the
selected list names name, service_used, rating, feedback_type and subject,
none of which exist in the feedback schema, plus the dynamically appended
filter columns and the resolved sort column. -/
def feedbackListSelectRefs (q : FeedbackListQuery) : List String :=
  ["feedback_id", "name", "email", "service_used", "rating", "feedback_type",
   "subject", "would_recommend", "status", "created_at", "updated_at"]
  ++ (if q.feedback_type.isSome then ["feedback_type"] else [])
  ++ (if q.rating.isSome then ["rating"] else [])
  ++ (if q.status.isSome then ["status"] else [])
  ++ (if q.service_used.isSome then ["service_used"] else [])
  ++ [feedbackSortColumn q]

/-- The representable part of the WHERE clause built by feedback.js lines
166-188 (the status filter; the rating, feedback_type and service_used
conjuncts compare columns that do not exist, and the statement fails the
column check before any row is tested). -/
def feedbackListCond (q : FeedbackListQuery) (r : FeedbackRow) : Bool :=
  match q.status with
  | some s => r.status == s
  | none => true

/-- GET /api/feedback (feedback.js lines 149-232): the page SELECT names
columns absent from the feedback schema, so sqlite3 rejects it and the
handler can never produce a page. -/
def feedbackList (store : List FeedbackRow) (q : FeedbackListQuery) :
    Except String (ListPage FeedbackRow) :=
  match runGetRows feedbackColumns (feedbackListSelectRefs q)
      (feedbackListCond q) store with
  | .error e => .error e
  | .ok _rows =>
    match runCount feedbackColumns
        ((if q.feedback_type.isSome then ["feedback_type"] else [])
         ++ (if q.rating.isSome then ["rating"] else [])
         ++ (if q.status.isSome then ["status"] else [])
         ++ (if q.service_used.isSome then ["service_used"] else []))
        (feedbackListCond q) store with
    | .error e => .error e
    | .ok total =>
      .ok { records := ((store.filter (feedbackListCond q)).drop
              ((q.page - 1) * q.limit)).take q.limit
            total := total
            total_pages := ceilDiv total q.limit }

/-! ## Visa application submission

The visa route module (routes/visa, required by server.js line 11) is not
among the provided source files; only its table schema (database.js lines
31-59), its callers and the spec describe it. The definitions below are
therefore modelled from the spec. -/

/-- A calendar date of an ISO-8601 date string, year-month-day. -/
structure CalDate where
  year : Nat
  month : Nat
  day : Nat
  deriving Repr, DecidableEq

/-- Gregorian leap-year rule. -/
def isLeapYear (y : Nat) : Bool :=
  (y % 4 == 0 && y % 100 != 0) || y % 400 == 0

/-- Days in a month of the given year. -/
def daysInMonth (y m : Nat) : Nat :=
  if m == 2 then (if isLeapYear y then 29 else 28)
  else if [4, 6, 9, 11].contains m then 30
  else 31

/-- A well-formed calendar date. -/
def validCalDate (d : CalDate) : Bool :=
  decide (1 ≤ d.month) && decide (d.month ≤ 12) &&
  decide (1 ≤ d.day) && decide (d.day ≤ daysInMonth d.year d.month)

/-- Leap days in the years before year y of the proleptic Gregorian
calendar (year 0 counted as leap). -/
def leapsBeforeYear (y : Nat) : Nat := y / 4 + y / 400 - y / 100

/-- Days in the months of the year before month m (1-based), at day
granularity. -/
def daysBeforeMonth (leap : Bool) (m : Nat) : Nat :=
  (match m with
   | 1 => 0 | 2 => 31 | 3 => 59 | 4 => 90 | 5 => 120 | 6 => 151
   | 7 => 181 | 8 => 212 | 9 => 243 | 10 => 273 | 11 => 304 | _ => 334)
  + (if leap && decide (3 ≤ m) then 1 else 0)

/-- Modelled from the spec: the day number of a calendar date (days since
0000-01-01 of the proleptic Gregorian calendar), giving the exact day
count of spec section 4.1 as a difference of day numbers. -/
def dayNumber (d : CalDate) : Nat :=
  365 * d.year + leapsBeforeYear d.year
  + daysBeforeMonth (isLeapYear d.year) d.month + (d.day - 1)

/-- Modelled from the spec: the exact day count between two dates, the
quantity the declared duration of stay must equal (spec sections 4.1 and
8). -/
def dayCount (a b : CalDate) : Int :=
  (dayNumber b : Int) - (dayNumber a : Int)

/-- Allowed visa types; the spec requires enum membership for the visa
type without fixing the vocabulary, and the frontend form shows tourist
and business among the options. The claims quantify over inputs whose
per-field validation already passed, so nothing below depends on the
exact list. -/
def visaTypeAllowed : List String :=
  ["tourist", "business", "transit", "student", "work"]

/-- Modelled from the spec: the travel and applicant fields of a visa
application submission (spec section 3, database.js lines 31-59; the
uploaded files are outside these claims). -/
structure VisaInput where
  full_name : String
  email : String
  phone : String
  nationality : String
  passport_number : String
  visa_type : String
  purpose_of_visit : String
  duration_of_stay : Int
  arrival_date : CalDate
  departure_date : CalDate
  deriving Repr, DecidableEq

/-- An upper-case alphanumeric passport number of 6 to 20 characters
(spec section 4.1), checked after upper-casing normalization. -/
def passportMatches (s : String) : Bool :=
  let t := (trimChars s.data).map jsUpperChar
  decide (6 ≤ t.length) && decide (t.length ≤ 20) && t.all isUpperAlnum

/-- Modelled from the spec: the per-field validation rules of a visa
application (spec section 4.1), excluding the two cross-field checks. -/
def visaFieldErrors (i : VisaInput) : List FieldError :=
  nameRuleErrors i.full_name
  ++ emailRuleErrors i.email
  ++ (if phoneMatches (jsTrim i.phone) then []
      else [⟨"phone", "Please provide a valid phone number", jsTrim i.phone⟩])
  ++ lengthRuleErrors "nationality" 2 100
       "Please provide a valid nationality" i.nationality
  ++ (if passportMatches i.passport_number then []
      else [⟨"passport_number",
             "Passport number must be 6-20 uppercase letters and digits",
             jsTrim i.passport_number⟩])
  ++ enumRuleErrors "visa_type" visaTypeAllowed
       "Please select a valid visa type" i.visa_type
  ++ lengthRuleErrors "purpose_of_visit" 5 500
       "Please describe the purpose of your visit" i.purpose_of_visit
  ++ (if validCalDate i.arrival_date then []
      else [⟨"arrival_date", "Please provide a valid arrival date", ""⟩])
  ++ (if validCalDate i.departure_date then []
      else [⟨"departure_date", "Please provide a valid departure date", ""⟩])

/-- Modelled from the spec: the two cross-field checks of spec section
4.1, each failure naming its field: the departure date must be strictly
after the arrival date, and the declared duration of stay must equal the
exact day count between arrival and departure (a mismatch is a failure,
not auto-correction). -/
def visaCrossFieldErrors (i : VisaInput) : List FieldError :=
  (if decide (0 < dayCount i.arrival_date i.departure_date) then []
   else [⟨"departure_date", "Departure date must be after arrival date", ""⟩])
  ++ (if i.duration_of_stay == dayCount i.arrival_date i.departure_date then []
      else [⟨"duration_of_stay",
             "Duration of stay must equal the day count between arrival and departure",
             toString i.duration_of_stay⟩])

/-- Modelled from the spec: the identifier of a visa application, kind
prefixed like every other identifier of section 4.2 and matching the
application identifier pattern that feedback.js line 54 expects. -/
def mkVisaApplicationId (now : Nat) (digits : List Nat) : String :=
  "UAE-" ++ natDecString now ++ "-" ++ jsRandSuffix digits

/-- Modelled from the spec: POST /api/visa/application (spec sections 4.2
and 6): collect every per-field and cross-field failure into one 400
rejection, otherwise accept with a fresh identifier and status pending. -/
def visaSubmit (i : VisaInput) (now : Nat) (digits : List Nat) :
    ApiResponse :=
  let errs := visaFieldErrors i ++ visaCrossFieldErrors i
  if errs.isEmpty then
    .success 201 "pending" (some (mkVisaApplicationId now digits))
  else .validationFail errs

/-! ## Sample data used by the concrete evaluations -/

/-- A stored contact message. -/
def sampleContactRow : ContactRow :=
  { message_id := "CONTACT-1-ABC"
    full_name := "Jane Doe"
    email := "jane@example.com"
    phone := none
    inquiry_type := "general"
    subject := "Visa question"
    message := "I have a question about visas."
    preferred_contact := "email"
    status := "new"
    created_at := 0
    updated_at := 0 }

/-- A valid feedback submission body. -/
def sampleFeedbackInput : FeedbackInput :=
  { name := "John Smith"
    email := "john@example.com"
    phone := none
    service_used := none
    rating := 5
    feedback_type := "compliment"
    subject := "Great service"
    message := "Everything went smoothly, thanks!"
    would_recommend := "yes"
    application_id := none }

/-- A stored feedback entry. -/
def sampleFeedbackRow : FeedbackRow :=
  insertedFeedbackRow sampleFeedbackInput "FB-1-ABC" 0

/-- A valid contact submission body. -/
def sampleContactInput : ContactInput :=
  { name := "Jane Doe"
    email := "jane@example.com"
    phone := none
    subject := "Visa question"
    message := "I have a question about visas."
    inquiry_type := none
    preferred_contact_method := none }

/-- A 64-character unsubscribe token. -/
def sampleToken : String := String.mk (List.replicate 64 'a')

/-- A stored active newsletter subscription holding the sample token. -/
def sampleNewsletterRow : NewsletterRow :=
  { email := "a@b.com"
    full_name := none
    subscription_date := 0
    is_active := true
    unsubscribe_token := some sampleToken
    created_at := 0
    updated_at := 0 }

/-- A valid newsletter subscription body. -/
def sampleSubscribeInput : SubscribeInput :=
  { email := "a@b.com", name := none, preferences := none }

/-- A valid visa application input realizing the scenario of spec section
8: arrival 2025-06-10, departure 2025-06-15, declared duration 5. -/
def sampleVisaInput : VisaInput :=
  { full_name := "John Smith"
    email := "john@example.com"
    phone := "+971501234567"
    nationality := "Indian"
    passport_number := "A1234567"
    visa_type := "tourist"
    purpose_of_visit := "Tourism and sightseeing"
    duration_of_stay := 5
    arrival_date := ⟨2025, 6, 10⟩
    departure_date := ⟨2025, 6, 15⟩ }

/-! ## Helper lemmas -/

theorem digitChar_isDigit : ∀ d, d < 10 → (Nat.digitChar d).isDigit = true := by
  decide

theorem upper_base36_isUpperAlnum :
    ∀ d, d < 36 → isUpperAlnum (jsUpperChar (base36Char d)) = true := by
  decide

theorem natDecChars_all_digit (n : Nat) :
    ∀ c ∈ natDecChars n, c.isDigit = true := by
  induction n using Nat.strong_induction_on with
  | _ n ih =>
    rw [natDecChars]
    split
    · intro c hc
      rw [List.mem_singleton] at hc
      subst hc
      exact digitChar_isDigit n (by omega)
    · intro c hc
      rw [List.mem_append, List.mem_singleton] at hc
      rcases hc with hc | hc
      · exact ih (n / 10) (Nat.div_lt_self (by omega) (by omega)) c hc
      · subst hc
        exact digitChar_isDigit (n % 10) (Nat.mod_lt n (by omega))

theorem natDecChars_ne_nil (n : Nat) : natDecChars n ≠ [] := by
  rw [natDecChars]
  split
  · exact List.cons_ne_nil _ _
  · exact List.append_ne_nil_of_right_ne_nil _ (List.cons_ne_nil _ _)

theorem takeWhile_append_stop {α : Type} (p : α → Bool) (xs : List α)
    (y : α) (ys : List α) (hx : ∀ x ∈ xs, p x = true) (hy : p y = false) :
    (xs ++ y :: ys).takeWhile p = xs ∧ (xs ++ y :: ys).dropWhile p = y :: ys := by
  induction xs with
  | nil =>
    rw [List.nil_append]
    constructor
    · rw [List.takeWhile_cons, hy]
      simp
    · rw [List.dropWhile_cons, hy]
      simp
  | cons a as iha =>
    have ha : p a = true := hx a (List.mem_cons_self a as)
    have hrest : ∀ x ∈ as, p x = true :=
      fun x hxm => hx x (List.mem_cons_of_mem a hxm)
    rcases iha hrest with ⟨h1, h2⟩
    rw [List.cons_append]
    constructor
    · rw [List.takeWhile_cons, ha]
      simp [h1]
    · rw [List.dropWhile_cons, ha]
      simp [h2]

theorem jsRandSuffix_all_upperAlnum (digits : List Nat)
    (hlt : ∀ d ∈ digits, d < 36) :
    ∀ c ∈ (jsRandSuffix digits).data, isUpperAlnum c = true := by
  intro c hc
  rw [jsRandSuffix] at hc
  change c ∈ ((digits.map base36Char).take 6).map jsUpperChar at hc
  rw [List.mem_map] at hc
  rcases hc with ⟨b, hb, hbe⟩
  have hb' : b ∈ digits.map base36Char := List.take_subset 6 _ hb
  rw [List.mem_map] at hb'
  rcases hb' with ⟨d, hd, hde⟩
  subst hbe
  subst hde
  exact upper_base36_isUpperAlnum d (hlt d hd)

theorem jsRandSuffix_ne_nil (digits : List Nat) (hne : digits ≠ []) :
    (jsRandSuffix digits).data ≠ [] := by
  rw [jsRandSuffix]
  change ((digits.map base36Char).take 6).map jsUpperChar ≠ []
  rcases digits with _ | ⟨d, rest⟩
  · exact absurd rfl hne
  · rw [List.map_cons, List.take_succ_cons, List.map_cons]
    exact List.cons_ne_nil _ _

theorem mkFeedbackId_matches (now : Nat) (digits : List Nat)
    (hne : digits ≠ []) (hlt : ∀ d ∈ digits, d < 36) :
    matchesFeedbackIdPattern (mkFeedbackId now digits) = true := by
  have hdata : (mkFeedbackId now digits).data
      = 'F' :: 'B' :: '-' :: (natDecChars now ++ '-' :: (jsRandSuffix digits).data) := by
    rw [mkFeedbackId, String.data_append, String.data_append, String.data_append]
    show ['F', 'B', '-'] ++ (natDecString now).data ++ ['-'] ++ (jsRandSuffix digits).data = _
    rw [natDecString]
    show ['F', 'B', '-'] ++ natDecChars now ++ ['-'] ++ (jsRandSuffix digits).data = _
    simp
  rw [matchesFeedbackIdPattern, hdata]
  show (true && idTailMatches (natDecChars now ++ '-' :: (jsRandSuffix digits).data)) = true
  rw [Bool.true_and]
  rcases takeWhile_append_stop Char.isDigit (natDecChars now) '-'
      ((jsRandSuffix digits).data) (natDecChars_all_digit now) (by decide) with ⟨ht, hd⟩
  rw [idTailMatches, ht, hd]
  show (!(natDecChars now).isEmpty && upperTailMatches ((jsRandSuffix digits).data)) = true
  rw [upperTailMatches, Bool.and_eq_true, Bool.and_eq_true]
  refine ⟨?_, ?_, ?_⟩
  · rw [Bool.not_eq_true', List.isEmpty_eq_false_iff_exists_mem]
    rcases List.exists_mem_of_ne_nil _ (natDecChars_ne_nil now) with ⟨c, hc⟩
    exact ⟨c, hc⟩
  · rw [Bool.not_eq_true', List.isEmpty_eq_false_iff_exists_mem]
    rcases List.exists_mem_of_ne_nil _ (jsRandSuffix_ne_nil digits hne) with ⟨c, hc⟩
    exact ⟨c, hc⟩
  · rw [List.all_eq_true]
    intro c hc
    exact jsRandSuffix_all_upperAlnum digits hlt c hc

theorem httpStatus_validationFail (errs : List FieldError) :
    (ApiResponse.validationFail errs).httpStatus = 400 := rfl

theorem errorFields_validationFail (errs : List FieldError) :
    (ApiResponse.validationFail errs).errorFields = errs.map (·.field) := rfl

/-! ## Claim theorems -/

/-- C2: the spec promises that a PATCH status request on a contact message
or feedback entry with an allowed status answers 404 for an unknown
identifier and 200 with the stored status updated for a known one. The
code cannot deliver the update: the contact handler raises a
ReferenceError because getRow is missing from the import list of
contact.js line 3 (500 even for a stored identifier), and the feedback
handler reaches its UPDATE but that statement sets the admin_notes column,
which does not exist in the feedback schema, so sqlite3 rejects it (500
instead of 200, store unchanged); only the feedback 404 branch behaves as
specified. -/
theorem patch_status_handlers_crash :
    (contactPatchStatus [sampleContactRow] "CONTACT-1-ABC"
        ⟨"resolved", none⟩ 5).1
      = .jsError "ReferenceError: getRow is not defined" ∧
    (contactPatchStatus [sampleContactRow] "CONTACT-1-ABC"
        ⟨"resolved", none⟩ 5).2 = [sampleContactRow] ∧
    (feedbackPatchStatus [sampleFeedbackRow] "FB-1-ABC"
        ⟨"reviewed", none⟩ 5).1
      = .jsError "SQLITE_ERROR: no such column" ∧
    (feedbackPatchStatus [sampleFeedbackRow] "FB-1-ABC"
        ⟨"reviewed", none⟩ 5).2 = [sampleFeedbackRow] ∧
    (feedbackPatchStatus [sampleFeedbackRow] "FB-MISSING"
        ⟨"reviewed", none⟩ 5).1 = .appErr 404 "FEEDBACK_NOT_FOUND" ∧
    "admin_notes" ∉ feedbackColumns ∧ "admin_notes" ∉ contactMessagesColumns ∧
    "getRow" ∉ contactDbImportList :=
  ⟨rfl, rfl, rfl, rfl, rfl, by decide, by decide, by decide⟩

/-- C3: the spec promises that unsubscribing with the token of an active
subscription answers 200 and soft-deactivates the row. The handler's
SELECT (newsletter.js lines 183-186) filters on a status column that does
not exist in newsletter_subscriptions (the schema's active flag is
is_active), so sqlite3 rejects the statement and every unsubscribe request
answers 500 with the store untouched; no row is ever deactivated. -/
theorem unsubscribe_crashes_on_missing_column :
    (newsletterUnsubscribe [sampleNewsletterRow] sampleToken 5).1
      = .jsError "SQLITE_ERROR: no such column" ∧
    (newsletterUnsubscribe [sampleNewsletterRow] sampleToken 5).2
      = [sampleNewsletterRow] ∧
    (newsletterUnsubscribe [sampleNewsletterRow] sampleToken 5).1.httpStatus
      = 500 ∧
    sampleNewsletterRow.is_active = true ∧
    sampleNewsletterRow.unsubscribe_token = some sampleToken ∧
    sampleToken.length = 64 ∧
    "status" ∉ newsletterSubscriptionsColumns :=
  ⟨rfl, rfl, rfl, rfl, rfl, rfl, by decide⟩

/-- C6: the spec promises that a status-filtered, paginated list request
returns at most limit records of that status with total_pages equal to the
ceiling of total over limit. Neither list endpoint can return a page at
all: the feedback SELECT (feedback.js lines 196-203) names the columns
name, service_used, rating, feedback_type and subject, none of which exist
in the feedback schema, so sqlite3 rejects it; and the contact count query
calls getRow, which is missing from the import list of contact.js line 3,
so the handler raises a ReferenceError. Both requests answer 500. -/
theorem list_endpoints_cannot_return_pages :
    feedbackList [sampleFeedbackRow]
        { status := some "approved", page := 2, limit := 10 }
      = .error "SQLITE_ERROR: no such column" ∧
    contactListMessages [sampleContactRow]
        { status := some "new", page := 2, limit := 10 }
      = .error "ReferenceError: getRow is not defined" ∧
    "name" ∉ feedbackColumns ∧ "service_used" ∉ feedbackColumns ∧
    "rating" ∉ feedbackColumns ∧ "feedback_type" ∉ feedbackColumns ∧
    "subject" ∉ feedbackColumns :=
  ⟨rfl, rfl, by decide, by decide, by decide, by decide, by decide⟩

/-- C5: a PATCH status request whose status value lies outside the kind's
allowed enumeration is rejected with 400 by the validation middleware
before any database access, the errors array names the status field, and
the store is left entirely unchanged. Each kind's conclusion is gated only
on its own enumeration, so a status that the other kind accepts (for
example reviewed on a contact message or in_progress on a feedback entry)
is covered. -/
theorem patch_status_invalid_enum_rejected_unchanged
    (cstore : List ContactRow) (fstore : List FeedbackRow)
    (cid fid : String) (b : StatusPatchBody) (now : Nat) :
    (contactStatusAllowed.contains b.status = false →
     (contactPatchStatus cstore cid b now).1.httpStatus = 400 ∧
     (contactPatchStatus cstore cid b now).2 = cstore ∧
     "status" ∈ (contactPatchStatus cstore cid b now).1.errorFields) ∧
    (feedbackStatusAllowed.contains b.status = false →
     (feedbackPatchStatus fstore fid b now).1.httpStatus = 400 ∧
     (feedbackPatchStatus fstore fid b now).2 = fstore ∧
     "status" ∈ (feedbackPatchStatus fstore fid b now).1.errorFields) := by
  constructor
  · intro hc
    have hcv : contactPatchValidate b
        = ⟨"status", "Invalid status", b.status⟩ ::
          (match b.notes with
           | none => []
           | some n =>
             if decide ((jsTrim n).length ≤ 1000) then []
             else [⟨"notes", "Notes cannot exceed 1000 characters",
                    jsTrim n⟩]) := by
      rw [contactPatchValidate, enumRuleErrors, hc]
      simp
    have hcres : contactPatchStatus cstore cid b now
        = (.validationFail (contactPatchValidate b), cstore) := by
      rw [contactPatchStatus]
      simp only [hcv, List.isEmpty_cons, Bool.false_eq_true, if_false]
    refine ⟨?_, ?_, ?_⟩
    · rw [hcres]; rfl
    · rw [hcres]
    · rw [hcres]
      show "status" ∈ (contactPatchValidate b).map (·.field)
      rw [hcv]
      exact List.mem_cons_self _ _
  · intro hf
    have hfv : feedbackPatchValidate b
        = ⟨"status", "Invalid status", b.status⟩ ::
          (match b.notes with
           | none => []
           | some n =>
             if decide ((jsTrim n).length ≤ 1000) then []
             else [⟨"admin_notes", "Admin notes cannot exceed 1000 characters",
                    jsTrim n⟩]) := by
      rw [feedbackPatchValidate, enumRuleErrors, hf]
      simp
    have hfres : feedbackPatchStatus fstore fid b now
        = (.validationFail (feedbackPatchValidate b), fstore) := by
      rw [feedbackPatchStatus]
      simp only [hfv, List.isEmpty_cons, Bool.false_eq_true, if_false]
    refine ⟨?_, ?_, ?_⟩
    · rw [hfres]; rfl
    · rw [hfres]
    · rw [hfres]
      show "status" ∈ (feedbackPatchValidate b).map (·.field)
      rw [hfv]
      exact List.mem_cons_self _ _

/-- Witness for C5, on cross-kind statuses: reviewed is a valid feedback
status but not a contact one, and in_progress a valid contact status but
not a feedback one; the contact handler rejects reviewed and the feedback
handler rejects in_progress, each with 400 naming the status field and
the sample store unchanged. -/
theorem patch_status_invalid_enum_witness :
    contactStatusAllowed.contains "reviewed" = false ∧
    feedbackStatusAllowed.contains "reviewed" = true ∧
    feedbackStatusAllowed.contains "in_progress" = false ∧
    contactStatusAllowed.contains "in_progress" = true ∧
    ((contactPatchStatus [sampleContactRow] "CONTACT-1-ABC"
        ⟨"reviewed", none⟩ 5).1.httpStatus = 400 ∧
     (contactPatchStatus [sampleContactRow] "CONTACT-1-ABC"
        ⟨"reviewed", none⟩ 5).2 = [sampleContactRow] ∧
     "status" ∈ (contactPatchStatus [sampleContactRow] "CONTACT-1-ABC"
        ⟨"reviewed", none⟩ 5).1.errorFields) ∧
    ((feedbackPatchStatus [sampleFeedbackRow] "FB-1-ABC"
        ⟨"in_progress", none⟩ 5).1.httpStatus = 400 ∧
     (feedbackPatchStatus [sampleFeedbackRow] "FB-1-ABC"
        ⟨"in_progress", none⟩ 5).2 = [sampleFeedbackRow] ∧
     "status" ∈ (feedbackPatchStatus [sampleFeedbackRow] "FB-1-ABC"
        ⟨"in_progress", none⟩ 5).1.errorFields) :=
  ⟨by decide, by decide, by decide, by decide,
   (patch_status_invalid_enum_rejected_unchanged [sampleContactRow]
      [sampleFeedbackRow] "CONTACT-1-ABC" "FB-1-ABC" ⟨"reviewed", none⟩ 5).1
      (by decide),
   (patch_status_invalid_enum_rejected_unchanged [sampleContactRow]
      [sampleFeedbackRow] "CONTACT-1-ABC" "FB-1-ABC" ⟨"in_progress", none⟩ 5).2
      (by decide)⟩

/-- C4: the subscribe handler preserves at most one newsletter row per
email: an email whose first stored row is active answers
already_subscribed and writes nothing; an email whose first stored row is
inactive is reactivated in place by an UPDATE keyed on the email, leaving
the row count unchanged; only an email with no stored row leads to an
insert of exactly one new active row. -/
theorem subscribe_preserves_unique_email_row
    (store : List NewsletterRow) (i : SubscribeInput) (token : String)
    (now : Nat) (digits : List Nat)
    (hv : subscribeValidate i = []) :
    (∀ r, store.find? (emailCond (normalizeEmail i.email)) = some r →
      r.is_active = true →
      newsletterSubscribe store i token now digits
        = (.success 200 "already_subscribed" none, store)) ∧
    (∀ r, store.find? (emailCond (normalizeEmail i.email)) = some r →
      r.is_active = false →
      newsletterSubscribe store i token now digits
        = (.success 200 "reactivated" none,
           store.map (fun s => if emailCond (normalizeEmail i.email) s
             then reactivatedRow i.name token now s else s)) ∧
      (newsletterSubscribe store i token now digits).2.length
        = store.length) ∧
    (store.find? (emailCond (normalizeEmail i.email)) = none →
      newsletterSubscribe store i token now digits
        = (.success 201 "subscribed" (some (mkNewsletterId now digits)),
           store ++ [newSubscriptionRow i token now])) := by
  have hsel : columnsOk newsletterSubscriptionsColumns ["email"] = true := by
    decide
  have hup : columnsOk newsletterSubscriptionsColumns subscribeUpdateRefs
      = true := by decide
  have hins : columnsOk newsletterSubscriptionsColumns subscribeInsertRefs
      = true := by decide
  refine ⟨?_, ?_, ?_⟩
  · intro r hfind hact
    rw [newsletterSubscribe, runGetRow]
    simp only [hv, List.isEmpty_nil, if_true, hsel, hfind, hact]
  · intro r hfind hact
    have heq : newsletterSubscribe store i token now digits
        = (.success 200 "reactivated" none,
           store.map (fun s => if emailCond (normalizeEmail i.email) s
             then reactivatedRow i.name token now s else s)) := by
      rw [newsletterSubscribe, runGetRow]
      simp only [hv, List.isEmpty_nil, if_true, hsel, hfind, hact,
        Bool.false_eq_true, if_false]
      rw [runUpdate]
      simp only [hup, if_true]
    refine ⟨heq, ?_⟩
    rw [heq]
    exact List.length_map store _
  · intro hfind
    rw [newsletterSubscribe, runGetRow]
    simp only [hv, List.isEmpty_nil, if_true, hsel, hfind]
    rw [runInsert]
    simp only [hins, if_true]

/-- Witness for C4: for the sample subscription body all three cases are
realized on concrete stores: an active sample row answers
already_subscribed unchanged, an inactive copy of it is reactivated
without changing the row count, and the empty store receives exactly one
new row. -/
theorem subscribe_preserves_unique_email_row_witness :
    (newsletterSubscribe [sampleNewsletterRow] sampleSubscribeInput
        "tok" 7 [1, 2]
      = (.success 200 "already_subscribed" none, [sampleNewsletterRow])) ∧
    ((newsletterSubscribe [{ sampleNewsletterRow with is_active := false }]
        sampleSubscribeInput "tok" 7 [1, 2]).2.length = 1) ∧
    (newsletterSubscribe [] sampleSubscribeInput "tok" 7 [1, 2]
      = (.success 201 "subscribed" (some (mkNewsletterId 7 [1, 2])),
         [newSubscriptionRow sampleSubscribeInput "tok" 7])) :=
  ⟨(subscribe_preserves_unique_email_row [sampleNewsletterRow]
      sampleSubscribeInput "tok" 7 [1, 2] (by decide)).1
      sampleNewsletterRow (by decide) rfl,
   by
    rw [((subscribe_preserves_unique_email_row
        [{ sampleNewsletterRow with is_active := false }]
        sampleSubscribeInput "tok" 7 [1, 2] (by decide)).2.1
        { sampleNewsletterRow with is_active := false } (by decide) rfl).1]
    rfl,
   (subscribe_preserves_unique_email_row [] sampleSubscribeInput
      "tok" 7 [1, 2] (by decide)).2.2 (by decide)⟩

/-- C1: for a visa application submission whose per-field validation
passes, a departure date not strictly after the arrival date is rejected
with a validation error naming departure_date, a declared duration of stay
differing from the exact day count between arrival and departure is
rejected with a validation error naming duration_of_stay, and when both
cross-field checks pass the application is accepted with status pending.
The handler is modelled from the spec because the visa route source is not
among the provided files. -/
theorem visa_cross_field_validation (i : VisaInput) (now : Nat)
    (digits : List Nat) (hfields : visaFieldErrors i = []) :
    (¬ 0 < dayCount i.arrival_date i.departure_date →
      (visaSubmit i now digits).httpStatus = 400 ∧
      "departure_date" ∈ (visaSubmit i now digits).errorFields) ∧
    (i.duration_of_stay ≠ dayCount i.arrival_date i.departure_date →
      (visaSubmit i now digits).httpStatus = 400 ∧
      "duration_of_stay" ∈ (visaSubmit i now digits).errorFields) ∧
    (0 < dayCount i.arrival_date i.departure_date →
      i.duration_of_stay = dayCount i.arrival_date i.departure_date →
      visaSubmit i now digits
        = .success 201 "pending" (some (mkVisaApplicationId now digits))) := by
  refine ⟨?_, ?_, ?_⟩
  · intro h
    have h1 : decide (0 < dayCount i.arrival_date i.departure_date) = false :=
      decide_eq_false h
    have hcross : visaCrossFieldErrors i
        = ⟨"departure_date", "Departure date must be after arrival date", ""⟩ ::
          (if i.duration_of_stay == dayCount i.arrival_date i.departure_date
           then []
           else [⟨"duration_of_stay",
                  "Duration of stay must equal the day count between arrival and departure",
                  toString i.duration_of_stay⟩]) := by
      rw [visaCrossFieldErrors, h1]
      simp
    have hres : visaSubmit i now digits
        = .validationFail (visaFieldErrors i ++ visaCrossFieldErrors i) := by
      rw [visaSubmit]
      simp only [hfields, List.nil_append, hcross, List.isEmpty_cons,
        Bool.false_eq_true, if_false]
    rw [hres]
    refine ⟨rfl, ?_⟩
    rw [errorFields_validationFail, hfields, List.nil_append, hcross]
    exact List.mem_cons_self _ _
  · intro h
    have h2 : (i.duration_of_stay
        == dayCount i.arrival_date i.departure_date) = false :=
      beq_eq_false_iff_ne.mpr h
    have hcross : visaCrossFieldErrors i
        = (if decide (0 < dayCount i.arrival_date i.departure_date) then []
           else [⟨"departure_date", "Departure date must be after arrival date",
                  ""⟩])
          ++ [⟨"duration_of_stay",
               "Duration of stay must equal the day count between arrival and departure",
               toString i.duration_of_stay⟩] := by
      rw [visaCrossFieldErrors, h2]
      rfl
    have hne : (visaCrossFieldErrors i).isEmpty = false := by
      rw [List.isEmpty_eq_false_iff_exists_mem]
      refine ⟨⟨"duration_of_stay",
        "Duration of stay must equal the day count between arrival and departure",
        toString i.duration_of_stay⟩, ?_⟩
      rw [hcross, List.mem_append]
      exact Or.inr (List.mem_cons_self _ _)
    have hres : visaSubmit i now digits
        = .validationFail (visaFieldErrors i ++ visaCrossFieldErrors i) := by
      rw [visaSubmit]
      simp only [hfields, List.nil_append, hne, Bool.false_eq_true, if_false]
    rw [hres]
    refine ⟨rfl, ?_⟩
    rw [errorFields_validationFail, hfields, List.nil_append, hcross,
      List.map_append, List.mem_append]
    exact Or.inr (List.mem_cons_self _ _)
  · intro hlt heq
    have h1 : decide (0 < dayCount i.arrival_date i.departure_date) = true :=
      decide_eq_true hlt
    have h2 : (i.duration_of_stay
        == dayCount i.arrival_date i.departure_date) = true :=
      beq_iff_eq.mpr heq
    have hcross : visaCrossFieldErrors i = [] := by
      rw [visaCrossFieldErrors, h1, h2]
      rfl
    rw [visaSubmit]
    simp only [hfields, hcross, List.append_nil, List.isEmpty_nil, if_true]

/-- Witness for C1: the spec scenario. The sample input with arrival
2025-06-10, departure 2025-06-15 and declared duration 5 passes every
check and is accepted with status pending; the same input with declared
duration 6 is rejected with a validation error naming duration_of_stay. -/
theorem visa_cross_field_validation_witness :
    visaFieldErrors sampleVisaInput = [] ∧
    dayCount sampleVisaInput.arrival_date sampleVisaInput.departure_date = 5 ∧
    visaSubmit sampleVisaInput 1718000000000 [5, 17, 35]
      = .success 201 "pending"
          (some (mkVisaApplicationId 1718000000000 [5, 17, 35])) ∧
    ((visaSubmit { sampleVisaInput with duration_of_stay := 6 }
        1718000000000 [5, 17, 35]).httpStatus = 400 ∧
     "duration_of_stay" ∈ (visaSubmit
        { sampleVisaInput with duration_of_stay := 6 }
        1718000000000 [5, 17, 35]).errorFields) :=
  ⟨by decide, by decide,
   (visa_cross_field_validation sampleVisaInput 1718000000000 [5, 17, 35]
      (by decide)).2.2 (by decide) (by decide),
   (visa_cross_field_validation
      { sampleVisaInput with duration_of_stay := 6 }
      1718000000000 [5, 17, 35] (by decide)).2.1 (by decide)⟩

/-- C7: a feedback submission with rating 6 is rejected with a validation
error on the rating field, and a submission passing every rule (the
witness uses rating 5 and would_recommend yes) is accepted with a
feedback identifier matching FB, digits, hyphen, upper-case alphanumerics,
for any timestamp and any nonzero draw of Math.random. -/
theorem feedback_rating_bounds_and_id_format
    (store : List FeedbackRow) (i : FeedbackInput) (now : Nat)
    (digits : List Nat) (u a : EmailOutcome)
    (hne : digits ≠ []) (hlt : ∀ d ∈ digits, d < 36) :
    (i.rating = 6 →
      (feedbackSubmit store i now digits u a).1.httpStatus = 400 ∧
      "rating" ∈ (feedbackSubmit store i now digits u a).1.errorFields) ∧
    (feedbackValidate i = [] →
      (feedbackSubmit store i now digits u a).1
        = .success 201 "received" (some (mkFeedbackId now digits)) ∧
      matchesFeedbackIdPattern (mkFeedbackId now digits) = true) := by
  constructor
  · intro h6
    have hchunk : (if decide (1 ≤ i.rating) && decide (i.rating ≤ 5)
        then ([] : List FieldError)
        else [⟨"rating", "Rating must be between 1 and 5",
              toString i.rating⟩])
        = [⟨"rating", "Rating must be between 1 and 5", toString i.rating⟩] := by
      rw [h6]
      rfl
    have hmem : (⟨"rating", "Rating must be between 1 and 5",
        toString i.rating⟩ : FieldError) ∈ feedbackValidate i := by
      rw [feedbackValidate, hchunk]
      simp [List.mem_append]
    have hempty : (feedbackValidate i).isEmpty = false := by
      rw [List.isEmpty_eq_false_iff_exists_mem]
      exact ⟨_, hmem⟩
    have hres : feedbackSubmit store i now digits u a
        = (.validationFail (feedbackValidate i), store, []) := by
      rw [feedbackSubmit]
      simp only [hempty, Bool.false_eq_true, if_false]
    rw [hres]
    refine ⟨rfl, ?_⟩
    show "rating" ∈ (feedbackValidate i).map (·.field)
    exact List.mem_map_of_mem _ hmem
  · intro hv
    have hcols : columnsOk feedbackColumns feedbackInsertRefs = true := by
      decide
    have hres : feedbackSubmit store i now digits u a
        = (.success 201 "received" (some (mkFeedbackId now digits)),
           store ++ [insertedFeedbackRow i (mkFeedbackId now digits) now],
           emailTryCatchLog u a) := by
      simp only [feedbackSubmit, hv, List.isEmpty_nil, if_true, runInsert,
        hcols]
    rw [hres]
    exact ⟨rfl, mkFeedbackId_matches now digits hne hlt⟩

/-- Witness for C7: the sample rating 6 submission is rejected on the
rating field; the sample rating 5, would_recommend yes submission passes
validation and its identifier matches the pattern. -/
theorem feedback_rating_bounds_and_id_format_witness :
    feedbackValidate sampleFeedbackInput = [] ∧
    sampleFeedbackInput.rating = 5 ∧
    sampleFeedbackInput.would_recommend = "yes" ∧
    ((feedbackSubmit [] { sampleFeedbackInput with rating := 6 }
        1718000000000 [5, 17, 35] (.sent "m1") (.sent "m2")).1.httpStatus
          = 400 ∧
     "rating" ∈ (feedbackSubmit [] { sampleFeedbackInput with rating := 6 }
        1718000000000 [5, 17, 35] (.sent "m1") (.sent "m2")).1.errorFields) ∧
    ((feedbackSubmit [] sampleFeedbackInput 1718000000000 [5, 17, 35]
        (.sent "m1") (.sent "m2")).1
       = .success 201 "received"
           (some (mkFeedbackId 1718000000000 [5, 17, 35])) ∧
     matchesFeedbackIdPattern (mkFeedbackId 1718000000000 [5, 17, 35])
       = true) :=
  ⟨by decide, rfl, rfl,
   (feedback_rating_bounds_and_id_format []
      { sampleFeedbackInput with rating := 6 } 1718000000000 [5, 17, 35]
      (.sent "m1") (.sent "m2") (by decide) (by decide)).1 rfl,
   (feedback_rating_bounds_and_id_format [] sampleFeedbackInput
      1718000000000 [5, 17, 35] (.sent "m1") (.sent "m2") (by decide)
      (by decide)).2 (by decide)⟩

/-- C9: for contact and feedback submissions whose durable insert
succeeds, the outcome of the notification emails never changes the
response or the stored rows: the handler answers the same 201 success
envelope whether the sends succeed or fail, and only the console log
differs. -/
theorem email_failure_does_not_affect_response
    (cstore : List ContactRow) (fstore : List FeedbackRow)
    (ci : ContactInput) (fi : FeedbackInput) (now : Nat) (digits : List Nat)
    (u a u' a' : EmailOutcome)
    (hc : contactValidate ci = []) (hf : feedbackValidate fi = []) :
    ((contactSubmit cstore ci now digits u a).1
       = (contactSubmit cstore ci now digits u' a').1 ∧
     (contactSubmit cstore ci now digits u a).2.1
       = (contactSubmit cstore ci now digits u' a').2.1 ∧
     (contactSubmit cstore ci now digits u a).1
       = .success 201 "received" (some (mkContactId now digits))) ∧
    ((feedbackSubmit fstore fi now digits u a).1
       = (feedbackSubmit fstore fi now digits u' a').1 ∧
     (feedbackSubmit fstore fi now digits u a).2.1
       = (feedbackSubmit fstore fi now digits u' a').2.1 ∧
     (feedbackSubmit fstore fi now digits u a).1
       = .success 201 "received" (some (mkFeedbackId now digits))) := by
  have hccols : columnsOk contactMessagesColumns contactInsertRefs = true := by
    decide
  have hfcols : columnsOk feedbackColumns feedbackInsertRefs = true := by
    decide
  have hckey : ∀ u a : EmailOutcome, contactSubmit cstore ci now digits u a
      = (.success 201 "received" (some (mkContactId now digits)),
         cstore ++ [insertedContactRow ci (mkContactId now digits) now],
         emailTryCatchLog u a) := by
    intro u a
    simp only [contactSubmit, hc, List.isEmpty_nil, if_true, runInsert,
      hccols]
  have hfkey : ∀ u a : EmailOutcome, feedbackSubmit fstore fi now digits u a
      = (.success 201 "received" (some (mkFeedbackId now digits)),
         fstore ++ [insertedFeedbackRow fi (mkFeedbackId now digits) now],
         emailTryCatchLog u a) := by
    intro u a
    simp only [feedbackSubmit, hf, List.isEmpty_nil, if_true, runInsert,
      hfcols]
  rw [hckey u a, hckey u' a', hfkey u a, hfkey u' a']
  exact ⟨⟨rfl, rfl, rfl⟩, ⟨rfl, rfl, rfl⟩⟩

/-- Witness for C9: the sample contact and feedback submissions succeed,
and the response plus stored rows with both emails failing equal those
with both emails delivered. -/
theorem email_failure_does_not_affect_response_witness :
    contactValidate sampleContactInput = [] ∧
    feedbackValidate sampleFeedbackInput = [] ∧
    ((contactSubmit [] sampleContactInput 1000 [1, 2, 3]
        (.failed "SMTP connection refused") (.failed "SMTP connection refused")).1
      = (contactSubmit [] sampleContactInput 1000 [1, 2, 3]
          (.sent "m1") (.sent "m2")).1 ∧
     (contactSubmit [] sampleContactInput 1000 [1, 2, 3]
        (.failed "SMTP connection refused") (.failed "SMTP connection refused")).2.1
      = (contactSubmit [] sampleContactInput 1000 [1, 2, 3]
          (.sent "m1") (.sent "m2")).2.1 ∧
     (contactSubmit [] sampleContactInput 1000 [1, 2, 3]
        (.failed "SMTP connection refused") (.failed "SMTP connection refused")).1
      = .success 201 "received" (some (mkContactId 1000 [1, 2, 3]))) ∧
    ((feedbackSubmit [] sampleFeedbackInput 1000 [1, 2, 3]
        (.failed "SMTP connection refused") (.failed "SMTP connection refused")).1
      = (feedbackSubmit [] sampleFeedbackInput 1000 [1, 2, 3]
          (.sent "m1") (.sent "m2")).1 ∧
     (feedbackSubmit [] sampleFeedbackInput 1000 [1, 2, 3]
        (.failed "SMTP connection refused") (.failed "SMTP connection refused")).2.1
      = (feedbackSubmit [] sampleFeedbackInput 1000 [1, 2, 3]
          (.sent "m1") (.sent "m2")).2.1 ∧
     (feedbackSubmit [] sampleFeedbackInput 1000 [1, 2, 3]
        (.failed "SMTP connection refused") (.failed "SMTP connection refused")).1
      = .success 201 "received" (some (mkFeedbackId 1000 [1, 2, 3]))) :=
  ⟨by decide, by decide,
   (email_failure_does_not_affect_response [] [] sampleContactInput
      sampleFeedbackInput 1000 [1, 2, 3]
      (.failed "SMTP connection refused") (.failed "SMTP connection refused")
      (.sent "m1") (.sent "m2") (by decide) (by decide)).1,
   (email_failure_does_not_affect_response [] [] sampleContactInput
      sampleFeedbackInput 1000 [1, 2, 3]
      (.failed "SMTP connection refused") (.failed "SMTP connection refused")
      (.sent "m1") (.sent "m2") (by decide) (by decide)).2⟩

/-- C10: an accepted feedback submission appends exactly one row, which
stores the identifier, trimmed name, normalized email, rating as
service_rating, would_recommend, trimmed subject as feedback_title,
trimmed message as feedback_message and status pending; its phone column
is NULL, and feedback_type, service_used and application_id are not
columns of the feedback table at all, so all four validated-but-dropped
inputs are absent from every later read of the record. -/
theorem feedback_insert_drops_unpersisted_fields
    (store : List FeedbackRow) (i : FeedbackInput) (now : Nat)
    (digits : List Nat) (u a : EmailOutcome)
    (hv : feedbackValidate i = []) :
    (feedbackSubmit store i now digits u a).2.1
      = store ++ [insertedFeedbackRow i (mkFeedbackId now digits) now] ∧
    (insertedFeedbackRow i (mkFeedbackId now digits) now).phone = none ∧
    (insertedFeedbackRow i (mkFeedbackId now digits) now).visa_type = none ∧
    (insertedFeedbackRow i (mkFeedbackId now digits) now).feedback_id
      = mkFeedbackId now digits ∧
    (insertedFeedbackRow i (mkFeedbackId now digits) now).full_name
      = jsTrim i.name ∧
    (insertedFeedbackRow i (mkFeedbackId now digits) now).email
      = normalizeEmail i.email ∧
    (insertedFeedbackRow i (mkFeedbackId now digits) now).service_rating
      = i.rating ∧
    (insertedFeedbackRow i (mkFeedbackId now digits) now).would_recommend
      = i.would_recommend ∧
    (insertedFeedbackRow i (mkFeedbackId now digits) now).feedback_title
      = jsTrim i.subject ∧
    (insertedFeedbackRow i (mkFeedbackId now digits) now).feedback_message
      = jsTrim i.message ∧
    (insertedFeedbackRow i (mkFeedbackId now digits) now).status = "pending" ∧
    "feedback_type" ∉ feedbackColumns ∧
    "service_used" ∉ feedbackColumns ∧
    "application_id" ∉ feedbackColumns ∧
    "phone" ∉ feedbackInsertRefs ∧
    "feedback_type" ∉ feedbackInsertRefs ∧
    "service_used" ∉ feedbackInsertRefs ∧
    "application_id" ∉ feedbackInsertRefs := by
  have hcols : columnsOk feedbackColumns feedbackInsertRefs = true := by
    decide
  refine ⟨?_, rfl, rfl, rfl, rfl, rfl, rfl, rfl, rfl, rfl, rfl,
    by decide, by decide, by decide, by decide, by decide, by decide,
    by decide⟩
  simp only [feedbackSubmit, hv, List.isEmpty_nil, if_true, runInsert, hcols]

/-- Witness for C10: the accepted sample submission carrying a phone, a
service_used, a feedback_type and an application_id leaves exactly one
stored row with phone NULL and the dropped inputs nowhere. -/
theorem feedback_insert_drops_unpersisted_fields_witness :
    feedbackValidate { sampleFeedbackInput with
        phone := some "+971501234567"
        service_used := some "consultation"
        application_id := some "UAE-1-XYZ" } = [] ∧
    (feedbackSubmit [] { sampleFeedbackInput with
        phone := some "+971501234567"
        service_used := some "consultation"
        application_id := some "UAE-1-XYZ" } 1000 [1, 2, 3]
        (.sent "m1") (.sent "m2")).2.1
      = [insertedFeedbackRow { sampleFeedbackInput with
          phone := some "+971501234567"
          service_used := some "consultation"
          application_id := some "UAE-1-XYZ" }
          (mkFeedbackId 1000 [1, 2, 3]) 1000] ∧
    (insertedFeedbackRow { sampleFeedbackInput with
        phone := some "+971501234567"
        service_used := some "consultation"
        application_id := some "UAE-1-XYZ" }
        (mkFeedbackId 1000 [1, 2, 3]) 1000).phone = none :=
  ⟨by decide,
   (feedback_insert_drops_unpersisted_fields [] { sampleFeedbackInput with
      phone := some "+971501234567"
      service_used := some "consultation"
      application_id := some "UAE-1-XYZ" } 1000 [1, 2, 3]
      (.sent "m1") (.sent "m2") (by decide)).1,
   (feedback_insert_drops_unpersisted_fields [] { sampleFeedbackInput with
      phone := some "+971501234567"
      service_used := some "consultation"
      application_id := some "UAE-1-XYZ" } 1000 [1, 2, 3]
      (.sent "m1") (.sent "m2") (by decide)).2.1⟩

/-- C8: validation is collected, not short-circuited: for both submission
pipelines, whenever any rule is violated the single response is the 400
validation envelope carrying the entire collected error list (entries of
the shape field, message, value), never a 5xx; and each violated rule
contributes its field to that list, independently of every other field. -/
theorem validation_errors_fully_enumerated
    (cstore : List ContactRow) (fstore : List FeedbackRow)
    (ci : ContactInput) (fi : FeedbackInput) (now : Nat) (digits : List Nat)
    (u a : EmailOutcome) :
    (feedbackValidate fi ≠ [] →
      (feedbackSubmit fstore fi now digits u a).1
        = .validationFail (feedbackValidate fi) ∧
      (feedbackSubmit fstore fi now digits u a).1.httpStatus = 400) ∧
    (contactValidate ci ≠ [] →
      (contactSubmit cstore ci now digits u a).1
        = .validationFail (contactValidate ci) ∧
      (contactSubmit cstore ci now digits u a).1.httpStatus = 400) ∧
    ((decide (2 ≤ (jsTrim fi.name).length)
        && decide ((jsTrim fi.name).length ≤ 100)) = false →
      "name" ∈ (feedbackValidate fi).map (·.field)) ∧
    (nameMatches (jsTrim fi.name) = false →
      "name" ∈ (feedbackValidate fi).map (·.field)) ∧
    (isEmailShaped fi.email = false →
      "email" ∈ (feedbackValidate fi).map (·.field)) ∧
    (∀ s, fi.service_used = some s →
      serviceUsedAllowed.contains s = false →
      "service_used" ∈ (feedbackValidate fi).map (·.field)) ∧
    ((decide (1 ≤ fi.rating) && decide (fi.rating ≤ 5)) = false →
      "rating" ∈ (feedbackValidate fi).map (·.field)) ∧
    (feedbackTypeAllowed.contains fi.feedback_type = false →
      "feedback_type" ∈ (feedbackValidate fi).map (·.field)) ∧
    ((decide (5 ≤ (jsTrim fi.subject).length)
        && decide ((jsTrim fi.subject).length ≤ 200)) = false →
      "subject" ∈ (feedbackValidate fi).map (·.field)) ∧
    ((decide (10 ≤ (jsTrim fi.message).length)
        && decide ((jsTrim fi.message).length ≤ 2000)) = false →
      "message" ∈ (feedbackValidate fi).map (·.field)) ∧
    (wouldRecommendAllowed.contains fi.would_recommend = false →
      "would_recommend" ∈ (feedbackValidate fi).map (·.field)) ∧
    (∀ s, fi.application_id = some s →
      matchesApplicationIdPattern (jsTrim s) = false →
      "application_id" ∈ (feedbackValidate fi).map (·.field)) ∧
    ((decide (2 ≤ (jsTrim ci.name).length)
        && decide ((jsTrim ci.name).length ≤ 100)) = false →
      "name" ∈ (contactValidate ci).map (·.field)) ∧
    (nameMatches (jsTrim ci.name) = false →
      "name" ∈ (contactValidate ci).map (·.field)) ∧
    (isEmailShaped ci.email = false →
      "email" ∈ (contactValidate ci).map (·.field)) ∧
    (∀ s, ci.phone = some s → phoneMatches (jsTrim s) = false →
      "phone" ∈ (contactValidate ci).map (·.field)) ∧
    ((decide (5 ≤ (jsTrim ci.subject).length)
        && decide ((jsTrim ci.subject).length ≤ 200)) = false →
      "subject" ∈ (contactValidate ci).map (·.field)) ∧
    ((decide (10 ≤ (jsTrim ci.message).length)
        && decide ((jsTrim ci.message).length ≤ 2000)) = false →
      "message" ∈ (contactValidate ci).map (·.field)) ∧
    (∀ s, ci.inquiry_type = some s →
      inquiryTypeAllowed.contains s = false →
      "inquiry_type" ∈ (contactValidate ci).map (·.field)) ∧
    (∀ s, ci.preferred_contact_method = some s →
      contactMethodAllowed.contains s = false →
      "preferred_contact_method" ∈ (contactValidate ci).map (·.field)) := by
  refine ⟨?_, ?_, ?_, ?_, ?_, ?_, ?_, ?_, ?_, ?_, ?_, ?_, ?_, ?_, ?_, ?_,
    ?_, ?_, ?_, ?_⟩
  · intro hne
    rcases List.exists_mem_of_ne_nil _ hne with ⟨e, he⟩
    have hempty : (feedbackValidate fi).isEmpty = false := by
      rw [List.isEmpty_eq_false_iff_exists_mem]
      exact ⟨e, he⟩
    have hres : feedbackSubmit fstore fi now digits u a
        = (.validationFail (feedbackValidate fi), fstore, []) := by
      rw [feedbackSubmit]
      simp only [hempty, Bool.false_eq_true, if_false]
    rw [hres]
    exact ⟨rfl, rfl⟩
  · intro hne
    rcases List.exists_mem_of_ne_nil _ hne with ⟨e, he⟩
    have hempty : (contactValidate ci).isEmpty = false := by
      rw [List.isEmpty_eq_false_iff_exists_mem]
      exact ⟨e, he⟩
    have hres : contactSubmit cstore ci now digits u a
        = (.validationFail (contactValidate ci), cstore, []) := by
      rw [contactSubmit]
      simp only [hempty, Bool.false_eq_true, if_false]
    rw [hres]
    exact ⟨rfl, rfl⟩
  · intro h
    simp [feedbackValidate, nameRuleErrors, lengthRuleErrors, enumRuleErrors,
      h]
  · intro h
    simp [feedbackValidate, nameRuleErrors, lengthRuleErrors, enumRuleErrors,
      h]
  · intro h
    simp [feedbackValidate, nameRuleErrors, lengthRuleErrors, enumRuleErrors,
      emailRuleErrors, h]
  · intro s hs h
    have hmem : s ∉ serviceUsedAllowed := by simpa using h
    simp [feedbackValidate, nameRuleErrors, lengthRuleErrors, enumRuleErrors,
      hs, hmem]
  · intro h
    simp [feedbackValidate, nameRuleErrors, lengthRuleErrors, enumRuleErrors,
      h]
  · intro h
    have hmem : fi.feedback_type ∉ feedbackTypeAllowed := by simpa using h
    simp [feedbackValidate, nameRuleErrors, lengthRuleErrors, enumRuleErrors,
      hmem]
  · intro h
    simp [feedbackValidate, nameRuleErrors, lengthRuleErrors, enumRuleErrors,
      h]
  · intro h
    simp [feedbackValidate, nameRuleErrors, lengthRuleErrors, enumRuleErrors,
      h]
  · intro h
    have hmem : fi.would_recommend ∉ wouldRecommendAllowed := by simpa using h
    simp [feedbackValidate, nameRuleErrors, lengthRuleErrors, enumRuleErrors,
      hmem]
  · intro s hs h
    simp [feedbackValidate, nameRuleErrors, lengthRuleErrors, enumRuleErrors,
      hs, h]
  · intro h
    simp [contactValidate, nameRuleErrors, lengthRuleErrors, enumRuleErrors,
      h]
  · intro h
    simp [contactValidate, nameRuleErrors, lengthRuleErrors, enumRuleErrors,
      h]
  · intro h
    simp [contactValidate, nameRuleErrors, lengthRuleErrors, enumRuleErrors,
      emailRuleErrors, h]
  · intro s hs h
    simp [contactValidate, nameRuleErrors, lengthRuleErrors, enumRuleErrors,
      hs, h]
  · intro h
    simp [contactValidate, nameRuleErrors, lengthRuleErrors, enumRuleErrors,
      h]
  · intro h
    simp [contactValidate, nameRuleErrors, lengthRuleErrors, enumRuleErrors,
      h]
  · intro s hs h
    have hmem : s ∉ inquiryTypeAllowed := by simpa using h
    simp [contactValidate, nameRuleErrors, lengthRuleErrors, enumRuleErrors,
      hs, hmem]
  · intro s hs h
    have hmem : s ∉ contactMethodAllowed := by simpa using h
    simp [contactValidate, nameRuleErrors, lengthRuleErrors, enumRuleErrors,
      hs, hmem]

/-- Witness for C8: a feedback body violating two rules at once (rating 6
and an unknown recommendation answer) is answered by one 400 envelope that
carries the full collected list, whose fields include both rating and
would_recommend. -/
theorem validation_errors_fully_enumerated_witness :
    feedbackValidate { sampleFeedbackInput with
        rating := 6, would_recommend := "definitely" } ≠ [] ∧
    ((feedbackSubmit [] { sampleFeedbackInput with
        rating := 6, would_recommend := "definitely" } 1000 [1, 2, 3]
        (.sent "m1") (.sent "m2")).1
      = .validationFail (feedbackValidate { sampleFeedbackInput with
          rating := 6, would_recommend := "definitely" }) ∧
     (feedbackSubmit [] { sampleFeedbackInput with
        rating := 6, would_recommend := "definitely" } 1000 [1, 2, 3]
        (.sent "m1") (.sent "m2")).1.httpStatus = 400) ∧
    "rating" ∈ (feedbackValidate { sampleFeedbackInput with
        rating := 6, would_recommend := "definitely" }).map (·.field) ∧
    "would_recommend" ∈ (feedbackValidate { sampleFeedbackInput with
        rating := 6, would_recommend := "definitely" }).map (·.field) :=
  ⟨by decide,
   (validation_errors_fully_enumerated [] [] sampleContactInput
      { sampleFeedbackInput with rating := 6, would_recommend := "definitely" }
      1000 [1, 2, 3] (.sent "m1") (.sent "m2")).1 (by decide),
   (validation_errors_fully_enumerated [] [] sampleContactInput
      { sampleFeedbackInput with rating := 6, would_recommend := "definitely" }
      1000 [1, 2, 3] (.sent "m1") (.sent "m2")).2.2.2.2.2.2.1 (by decide),
   (validation_errors_fully_enumerated [] [] sampleContactInput
      { sampleFeedbackInput with rating := 6, would_recommend := "definitely" }
      1000 [1, 2, 3] (.sent "m1") (.sent "m2")).2.2.2.2.2.2.2.2.2.2.1
      (by decide)⟩

end VisaSite
